import Mathlib

/-!
# go-storage: path resolver, error normalizer and segment coordinator

A shallow embedding of

* `services/azblob/utils.go`: `formatError`, `Service.formatError`,
  `Storage.formatError`, `Storage.getAbsPath`, `Storage.getRelPath`;
* `services/qingstor/client.go`: `Client.InitSegment`, `Client.WriteSegment`,
  `Client.CompleteSegment`, `Client.AbortSegment`.

Go strings are byte sequences, so a Go `string` is a `List UInt8` here.  The Go
interface type `error` is `Option GoError`, with `none` for `nil`.
-/

/-- A Go `string`: an immutable sequence of bytes. -/
abbrev GoString := List UInt8

/-- The bytes of an ASCII string literal of the source. -/
def str (s : String) : GoString := s.data.map (fun c => c.toNat.toUInt8)

namespace strings

/-- Go `strings.HasPrefix`: `len(s) >= len(prefix) && s[:len(prefix)] == prefix`. -/
def HasPrefix (s pre : GoString) : Bool :=
  decide (s.length ≥ pre.length) && (s.take pre.length == pre)

/-- Go `strings.TrimPrefix`: `s[len(prefix):]` when `s` has the prefix, else `s`. -/
def TrimPrefix (s pre : GoString) : GoString :=
  if HasPrefix s pre then s.drop pre.length else s

end strings

namespace azblob

/-- The fields of `Factory` that `utils.go` reads. -/
structure Factory where
  Credential : GoString
  Endpoint : GoString
  Name : GoString
  WorkDir : GoString
deriving DecidableEq, Repr

/-- The azblob `Service`; its SDK handle and pair tables play no part in the
functions embedded here. -/
structure Service where
  f : Factory
deriving DecidableEq, Repr

/-- The azblob `Storage` client: bucket name and work directory. -/
structure Storage where
  f : Factory
  name : GoString
  workDir : GoString
deriving DecidableEq, Repr

/-- `Storage.getAbsPath`: the work directory without its leading "/", then the path. -/
def Storage.getAbsPath (s : Storage) (path : GoString) : GoString :=
  let pre := strings.TrimPrefix s.workDir (str "/")
  pre ++ path

/-- `Storage.getRelPath`: the path with the trimmed work directory taken off its front. -/
def Storage.getRelPath (s : Storage) (path : GoString) : GoString :=
  let pre := strings.TrimPrefix s.workDir (str "/")
  strings.TrimPrefix path pre

end azblob


/-! ## Errors -/

namespace services

/-- Modelled from the spec: the canonical error kinds of package `services`
(not among the sources) that the embedded code and its test name:
`ErrObjectNotExist`, `ErrPermissionDenied`, `ErrUnexpected`,
`ErrRestrictionDissatisfied`, `ErrCapabilityInsufficient`. -/
inductive ErrorCode where
  | ObjectNotExist
  | PermissionDenied
  | Unexpected
  | RestrictionDissatisfied
  | CapabilityInsufficient
deriving DecidableEq, Repr

/-- Modelled from the spec: the text of a canonical error kind, named as in the
spec's list of kinds. -/
def ErrorCode.text : ErrorCode → GoString
  | .ObjectNotExist => str "not-exist"
  | .PermissionDenied => str "permission-denied"
  | .Unexpected => str "unexpected"
  | .RestrictionDissatisfied => str "restriction-not-satisfied"
  | .CapabilityInsufficient => str "unsupported-option"

end services

/-- A non-nil Go error value, by the dynamic types the embedded code tells apart. -/
inductive GoError where
  /-- A canonical error kind of package `services`; it implements `services.InternalError`. -/
  | code (c : services.ErrorCode)
  /-- Any other value implementing `services.InternalError`, such as the
  `PairUnsupportedError` that `newService` returns, with its `Error()` text. -/
  | internal (text : GoString)
  /-- A value implementing the SDK's `azblob.StorageError`: `ServiceCode()`,
  `Response().StatusCode` and `Error()`. -/
  | storage (serviceCode : GoString) (statusCode : Int) (text : GoString)
  /-- Any other error value (`errors.New`, `fmt.Errorf` without `%w`, SDK errors of
  other backends), with its `Error()` text. -/
  | other (text : GoString)
  /-- The `*fmt.wrapError` built by `fmt.Errorf` with one `%w` operand: the
  formatted message and the wrapped operand. -/
  | wrapError (msg : GoString) (err : GoError)
deriving DecidableEq, Repr

/-- The Go interface type `error`; `none` is `nil`. -/
abbrev error := Option GoError

/-- The `Error()` method. -/
def GoError.Error : GoError → GoString
  | .code c => c.text
  | .internal text => text
  | .storage _ _ text => text
  | .other text => text
  | .wrapError msg _ => msg

namespace services

/-- Modelled from the spec: `services.ErrObjectNotExist`, the not-exist kind. -/
def ErrObjectNotExist : GoError := .code .ObjectNotExist

/-- Modelled from the spec: `services.ErrPermissionDenied`, the permission-denied kind. -/
def ErrPermissionDenied : GoError := .code .PermissionDenied

/-- Modelled from the spec: `services.ErrUnexpected`, the unexpected kind. -/
def ErrUnexpected : GoError := .code .Unexpected

/-- The type assertion `err.(services.InternalError)`: its `ok` result. -/
def isInternalError : error → Bool
  | some (.code _) => true
  | some (.internal _) => true
  | _ => false

end services

namespace fmt

/-- The text `%v` prints for an `error` operand: `Error()`, or `<nil>` for nil. -/
def verbV : error → GoString
  | none => str "<nil>"
  | some e => e.Error

/-- `fmt.Errorf("%w" ++ sep ++ "%v", w, v)`: a `*fmt.wrapError` whose message is
the two operands printed around `sep` and whose `Unwrap()` is `w`. -/
def Errorf_w_v (sep : GoString) (w : GoError) (v : error) : error :=
  some (.wrapError (w.Error ++ sep ++ verbV v) w)

/-- `fmt.Errorf(msg ++ "%w", err)` for a non-nil `err`. -/
def Errorf_w (msg : GoString) (err : GoError) : error :=
  some (.wrapError (msg ++ err.Error) err)

/-- `fmt.Errorf` of a format without `%w`, already printed to `text`. -/
def Errorf (text : GoString) : GoError := .other text

end fmt

namespace errors

/-- The loop of `errors.Is` on non-nil operands: compare, then follow `Unwrap()`.
The targets used below are canonical kinds, which are comparable values. -/
def isLoop (err target : GoError) : Bool :=
  decide (err = target) ||
    match err with
    | .wrapError _ inner => isLoop inner target
    | _ => false

/-- Go `errors.Is`. -/
def Is (err target : error) : Bool :=
  match err, target with
  | some e, some t => isLoop e t
  | none, none => true
  | _, _ => false

end errors

namespace azblob

/-- What `formatError` reads off an `azblob.StorageError`. -/
structure StorageError where
  ServiceCode : GoString
  StatusCode : Int
deriving DecidableEq, Repr

/-- The type assertion `err.(azblob.StorageError)`: `some e` when `ok`. -/
def asStorageError : error → Option StorageError
  | some (.storage serviceCode statusCode _) => some ⟨serviceCode, statusCode⟩
  | _ => none

/-- The SDK constant `azblob.StorageErrorCodeBlobNotFound`. -/
def StorageErrorCodeBlobNotFound : GoString := str "BlobNotFound"

/-- The SDK constant `azblob.StorageErrorCodeInsufficientAccountPermissions`. -/
def StorageErrorCodeInsufficientAccountPermissions : GoString :=
  str "InsufficientAccountPermissions"

/-- The package-level `formatError` of `azblob/utils.go`. -/
def formatError (err : error) : error :=
  if services.isInternalError err then
    err
  else
    match asStorageError err with
    | none => fmt.Errorf_w_v (str ", ") services.ErrUnexpected err
    | some e =>
      if e.ServiceCode = str "" then
        if e.StatusCode = 404 then
          fmt.Errorf_w_v (str ": ") services.ErrObjectNotExist err
        else
          fmt.Errorf_w_v (str ", ") services.ErrUnexpected err
      else if e.ServiceCode = StorageErrorCodeBlobNotFound then
        fmt.Errorf_w_v (str ": ") services.ErrObjectNotExist err
      else if e.ServiceCode = StorageErrorCodeInsufficientAccountPermissions then
        fmt.Errorf_w_v (str ": ") services.ErrPermissionDenied err
      else
        fmt.Errorf_w_v (str ", ") services.ErrUnexpected err

end azblob

namespace services

/-- The struct `services.ServiceError` as `Service.formatError` fills it. -/
structure ServiceError where
  Op : GoString
  Err : error
  Servicer : azblob.Service
  Name : GoString
deriving DecidableEq, Repr

/-- The struct `services.StorageError` as `Storage.formatError` fills it. -/
structure StorageError where
  Op : GoString
  Err : error
  Storager : azblob.Storage
  Path : List GoString
deriving DecidableEq, Repr

end services

namespace azblob

/-- `Service.formatError`: nil for nil, else a `services.ServiceError` around
`formatError err`. The returned `error` is `none` or holds the struct. -/
def Service.formatError (s : Service) (op : GoString) (err : error) (name : GoString) :
    Option services.ServiceError :=
  if err = none then
    none
  else
    some { Op := op, Err := azblob.formatError err, Servicer := s, Name := name }

/-- `Storage.formatError`: nil for nil, else a `services.StorageError` around
`formatError err`. The returned `error` is `none` or holds the struct. -/
def Storage.formatError (s : Storage) (op : GoString) (err : error) (path : List GoString) :
    Option services.StorageError :=
  if err = none then
    none
  else
    some { Op := op, Err := azblob.formatError err, Storager := s, Path := path }

end azblob

/-! ## Segments -/

namespace segment

/-- The struct `segment.Part` as `client.go` builds and reads it. -/
structure Part where
  Offset : Int
  Size : Int
deriving DecidableEq, Repr

/-- The struct `segment.Segment` as `client.go` builds and reads it. -/
structure Segment where
  TotalSize : Int
  ID : GoString
  Parts : List Part
deriving DecidableEq, Repr

/-- Modelled from the spec: the methods of `*segment.Segment` that `client.go`
calls; package `pkg/segment` is not among the sources, so they are a parameter of
the client operations. `GetPartIndex` and `ValidateParts` only read the segment;
`InsertPart` returns the segment as it leaves it, with its error. -/
structure Methods where
  GetPartIndex : Segment → Part → Int × error
  InsertPart : Segment → Part → Segment × error
  ValidateParts : Segment → error

/-- Modelled from the spec: two parts overlap when their byte ranges
`[Offset, Offset+Size)` intersect. -/
def overlaps (p q : Part) : Bool :=
  decide (p.Offset < q.Offset + q.Size) && decide (q.Offset < p.Offset + p.Size)

/-- Modelled from the spec: insertion that keeps the parts ordered by offset. -/
def insertByOffset (p : Part) : List Part → List Part
  | [] => [p]
  | q :: rest => if p.Offset ≤ q.Offset then p :: q :: rest else q :: insertByOffset p rest

/-- Modelled from the spec: the parts, in order, are contiguous from `start` and
end exactly at `stop`. -/
def covers : List Part → Int → Int → Bool
  | [], start, stop => decide (start = stop)
  | p :: rest, start, stop => decide (p.Offset = start) && covers rest (start + p.Size) stop

/-- Modelled from the spec: the segment methods as the spec words them. The part
number is the count of parts already recorded; a part overlapping a recorded
one is rejected; validation asks for the parts to span `[0, TotalSize)` exactly. -/
def specMethods : Methods where
  GetPartIndex := fun s p =>
    if s.Parts.any (overlaps p) then (0, some (fmt.Errorf (str "overlapping-part")))
    else (s.Parts.length, none)
  InsertPart := fun s p =>
    if s.Parts.any (overlaps p) then (s, some (fmt.Errorf (str "overlapping-part")))
    else ({ s with Parts := insertByOffset p s.Parts }, none)
  ValidateParts := fun s =>
    if covers s.Parts 0 s.TotalSize then none
    else some (fmt.Errorf (str "incomplete-segment"))

end segment

namespace service

/-- The SDK struct `service.ObjectPartType`, with the fields `CompleteSegment` sets. -/
structure ObjectPartType where
  PartNumber : Int
  Size : Int
deriving DecidableEq, Repr

/-- A remote call on the bucket, with the arguments `client.go` passes. -/
inductive Request where
  | InitiateMultipartUpload (objectKey : GoString)
  | UploadMultipart (objectKey : GoString) (PartNumber : Int) (UploadID : GoString)
      (ContentLength : Int) (Body : GoString)
  | CompleteMultipartUpload (objectKey : GoString) (UploadID : GoString)
      (ObjectParts : List ObjectPartType)
  | AbortMultipartUpload (objectKey : GoString) (UploadID : GoString)
deriving DecidableEq, Repr

/-- What a remote call returns: the error, and the upload ID of the output
(read for `InitiateMultipartUpload` only, and only when the error is nil). -/
structure Response where
  UploadID : GoString
  err : error
deriving DecidableEq, Repr

/-- The remote bucket: the calls issued so far, and the outcome of the next
call as a function of that history and of the call. -/
structure Bucket where
  calls : List Request
  respond : List Request → Request → Response

/-- One remote call: the outcome, and the bucket with the call logged. -/
def Bucket.call (b : Bucket) (req : Request) : Bucket × Response :=
  ({ b with calls := b.calls ++ [req] }, b.respond b.calls req)

end service

namespace qingstor

/-- The Go map `map[string]*segment.Segment`, as an association list. -/
abbrev SegmentMap := List (GoString × segment.Segment)

/-- The map read `v, ok := m[path]`: `some v` when `ok`. -/
def SegmentMap.get : SegmentMap → GoString → Option segment.Segment
  | [], _ => none
  | (k, v) :: rest, path => if k = path then some v else SegmentMap.get rest path

/-- The builtin `delete(m, path)`. -/
def SegmentMap.delete (m : SegmentMap) (path : GoString) : SegmentMap :=
  m.filter (fun kv => decide (kv.1 ≠ path))

/-- The map write `m[path] = v`; it is also how a mutation through the stored
pointer shows in the table. -/
def SegmentMap.set (m : SegmentMap) (path : GoString) (v : segment.Segment) : SegmentMap :=
  (path, v) :: SegmentMap.delete m path

/-- The qingstor `Client`: its bucket and its segment table. The `config` and
`service` fields are not read by the segment operations. -/
structure Client where
  bucket : service.Bucket
  segments : SegmentMap

/-- The inner error of the three "is not initiated" returns. -/
def notInitiated (path : GoString) : GoError :=
  fmt.Errorf (str "segment " ++ path ++ str " is not initiated")

/-- `Client.InitSegment`. The options are parsed and dropped by the source, so
they are left out. Returns the client after the call and the error. -/
def Client.InitSegment (c : Client) (path : GoString) (size : Int) : Client × error :=
  match SegmentMap.get c.segments path with
  | some _ => (c, some (fmt.Errorf (str "Segment " ++ path ++ str " has been initiated")))
  | none =>
    let (bucket, output) := c.bucket.call (.InitiateMultipartUpload path)
    match output.err with
    | some err => ({ c with bucket := bucket }, fmt.Errorf_w (str "qingstor InitSegment failed: ") err)
    | none =>
      ({ bucket := bucket,
         segments := SegmentMap.set c.segments path
           { TotalSize := size, ID := output.UploadID, Parts := [] } }, none)

/-- `Client.WriteSegment`, with the body `r` as the bytes it yields. -/
def Client.WriteSegment (m : segment.Methods) (c : Client) (path : GoString)
    (offset size : Int) (r : GoString) : Client × error :=
  match SegmentMap.get c.segments path with
  | none => (c, fmt.Errorf_w (str "qingstor WriteSegment failed: ") (notInitiated path))
  | some s =>
    let p : segment.Part := { Offset := offset, Size := size }
    let (partNumber, err) := m.GetPartIndex s p
    match err with
    | some err => (c, fmt.Errorf_w (str "qingstor WriteSegment failed: ") err)
    | none =>
      let (bucket, output) := c.bucket.call (.UploadMultipart path partNumber s.ID size r)
      match output.err with
      | some err =>
        ({ c with bucket := bucket }, fmt.Errorf_w (str "qingstor WriteSegment failed: ") err)
      | none =>
        let (s1, err) := m.InsertPart s p
        let c1 : Client := { bucket := bucket, segments := SegmentMap.set c.segments path s1 }
        match err with
        | some err => (c1, fmt.Errorf_w (str "qingstor WriteSegment failed: ") err)
        | none => (c1, none)

/-- The `objectParts` slice `CompleteSegment` builds: part number `k` for the
part at index `k`, with its size. -/
def objectParts (parts : List segment.Part) : List service.ObjectPartType :=
  parts.enum.map (fun kv => { PartNumber := (kv.1 : Int), Size := kv.2.Size })

/-- `Client.CompleteSegment`. -/
def Client.CompleteSegment (m : segment.Methods) (c : Client) (path : GoString) :
    Client × error :=
  match SegmentMap.get c.segments path with
  | none => (c, fmt.Errorf_w (str "qingstor CompleteSegment failed: ") (notInitiated path))
  | some s =>
    match m.ValidateParts s with
    | some err => (c, some err)
    | none =>
      let (bucket, output) :=
        c.bucket.call (.CompleteMultipartUpload path s.ID (objectParts s.Parts))
      match output.err with
      | some err =>
        ({ c with bucket := bucket }, fmt.Errorf_w (str "qingstor CompleteSegment failed: ") err)
      | none => ({ bucket := bucket, segments := SegmentMap.delete c.segments path }, none)

/-- `Client.AbortSegment`. -/
def Client.AbortSegment (c : Client) (path : GoString) : Client × error :=
  match SegmentMap.get c.segments path with
  | none => (c, fmt.Errorf_w (str "qingstor AbortSegment failed: ") (notInitiated path))
  | some s =>
    let (bucket, output) := c.bucket.call (.AbortMultipartUpload path s.ID)
    match output.err with
    | some err =>
      ({ c with bucket := bucket }, fmt.Errorf_w (str "qingstor AbortSegment failed: ") err)
    | none => ({ bucket := bucket, segments := SegmentMap.delete c.segments path }, none)

end qingstor

/-! ## Sample clients -/

namespace qingstor

/-- A bucket with no call issued yet whose every call succeeds, with upload ID `id-2`. -/
def acceptingBucket : service.Bucket :=
  { calls := [], respond := fun _ _ => { UploadID := str "id-2", err := none } }

/-- A bucket with no call issued yet whose every call fails. -/
def refusingBucket : service.Bucket :=
  { calls := [],
    respond := fun _ _ => { UploadID := [], err := some (fmt.Errorf (str "timeout")) } }

/-- A Segment of 150 bytes of which the first 100 are uploaded. -/
def openSegment : segment.Segment :=
  { TotalSize := 150, ID := str "id-1", Parts := [⟨0, 100⟩] }

/-- A Segment of 150 bytes with both of its parts uploaded. -/
def fullSegment : segment.Segment :=
  { TotalSize := 150, ID := str "id-3", Parts := [⟨0, 100⟩, ⟨100, 50⟩] }

/-- A client with a complete Segment at `a` and an open one at `b`, on a
backend that accepts every call. -/
def acceptedClient : Client :=
  { bucket := acceptingBucket, segments := [(str "a", fullSegment), (str "b", openSegment)] }

/-- A body of 50 bytes, the content length of the sample writes. -/
def fiftyBytes : GoString := List.replicate 50 120

/-- The same table on a backend that refuses every call. -/
def refusedClient : Client :=
  { bucket := refusingBucket, segments := [(str "a", fullSegment), (str "b", openSegment)] }

end qingstor

/-! ## Path resolver -/

theorem strings.HasPrefix_append (pre rest : GoString) :
    strings.HasPrefix (pre ++ rest) pre = true := by
  simp [strings.HasPrefix]

theorem strings.TrimPrefix_append (pre rest : GoString) :
    strings.TrimPrefix (pre ++ rest) pre = rest := by
  simp [strings.TrimPrefix, strings.HasPrefix_append]

/-- C1: for every work directory `w` and path `p`, `getRelPath (getAbsPath p) = p`
on a Storage whose work directory is `w`; equivalently every key made of the
trimmed work directory followed by `rest` is mapped back to `rest`. -/
theorem getRelPath_getAbsPath (f : azblob.Factory) (name w : GoString) :
    (∀ p : GoString,
      azblob.Storage.getRelPath ⟨f, name, w⟩ (azblob.Storage.getAbsPath ⟨f, name, w⟩ p) = p) ∧
    (∀ rest : GoString,
      azblob.Storage.getRelPath ⟨f, name, w⟩ (strings.TrimPrefix w (str "/") ++ rest) = rest) := by
  constructor
  · intro p
    simp only [azblob.Storage.getRelPath, azblob.Storage.getAbsPath]
    exact strings.TrimPrefix_append _ _
  · intro rest
    simp only [azblob.Storage.getRelPath]
    exact strings.TrimPrefix_append _ _


/-! ## Segment coordinator -/

namespace qingstor

theorem SegmentMap.get_delete_self (m : SegmentMap) (path : GoString) :
    SegmentMap.get (SegmentMap.delete m path) path = none := by
  induction m with
  | nil => rfl
  | cons kv rest ih =>
    obtain ⟨k, v⟩ := kv
    by_cases hk : k = path
    · simpa [SegmentMap.delete, List.filter, hk] using ih
    · simpa [SegmentMap.delete, List.filter, hk, SegmentMap.get] using ih

theorem SegmentMap.get_delete_other (m : SegmentMap) (path q : GoString) (hq : q ≠ path) :
    SegmentMap.get (SegmentMap.delete m path) q = SegmentMap.get m q := by
  induction m with
  | nil => rfl
  | cons kv rest ih =>
    obtain ⟨k, v⟩ := kv
    by_cases hk : k = path
    · subst hk
      have hkq : ¬ k = q := fun h => hq h.symm
      simpa [SegmentMap.delete, List.filter, SegmentMap.get, hkq] using ih
    · by_cases hkq : k = q
      · subst hkq
        simp [SegmentMap.delete, List.filter, hk, SegmentMap.get]
      · simpa [SegmentMap.delete, List.filter, hk, SegmentMap.get, hkq] using ih

theorem SegmentMap.get_set_self (m : SegmentMap) (path : GoString) (v : segment.Segment) :
    SegmentMap.get (SegmentMap.set m path v) path = some v := by
  simp [SegmentMap.set, SegmentMap.get]

theorem SegmentMap.get_set_other (m : SegmentMap) (path q : GoString) (v : segment.Segment)
    (hq : q ≠ path) :
    SegmentMap.get (SegmentMap.set m path v) q = SegmentMap.get m q := by
  have hpq : ¬ path = q := fun h => hq h.symm
  simp only [SegmentMap.set, SegmentMap.get, hpq, if_false]
  exact SegmentMap.get_delete_other m path q hq

end qingstor

/-- C2: `InitSegment` on a path that already has a live Segment fails, issues
no remote call, and leaves the client, with its segment table and the existing
Segment, as it was. -/
theorem InitSegment_duplicate_rejected (c : qingstor.Client) (path : GoString) (size : Int)
    (s : segment.Segment) (h : qingstor.SegmentMap.get c.segments path = some s) :
    (c.InitSegment path size).2 =
        some (fmt.Errorf (str "Segment " ++ path ++ str " has been initiated")) ∧
      (c.InitSegment path size).2 ≠ none ∧
      (c.InitSegment path size).1.bucket.calls = c.bucket.calls ∧
      (c.InitSegment path size).1.segments = c.segments ∧
      qingstor.SegmentMap.get (c.InitSegment path size).1.segments path = some s := by
  simp [qingstor.Client.InitSegment, h]

/-- A second `InitSegment` on the path `b`, which has an open Segment. -/
theorem InitSegment_duplicate_rejected_witness :
    qingstor.SegmentMap.get qingstor.acceptedClient.segments (str "b") =
        some qingstor.openSegment ∧
      (qingstor.acceptedClient.InitSegment (str "b") 7).2 =
        some (fmt.Errorf (str "Segment b has been initiated")) ∧
      (qingstor.acceptedClient.InitSegment (str "b") 7).1.bucket.calls = [] ∧
      qingstor.SegmentMap.get (qingstor.acceptedClient.InitSegment (str "b") 7).1.segments
        (str "b") = some qingstor.openSegment :=
  have h := InitSegment_duplicate_rejected qingstor.acceptedClient (str "b") 7
    qingstor.openSegment (by decide)
  ⟨by decide, h.1, h.2.2.1, h.2.2.2.2⟩

/-- C3: `CompleteSegment` returns an error exactly when the path has no live
Segment, part validation fails, or the backend commit call fails; in each of
these cases the segment table is unchanged and `AbortSegment` on the same path
still finds the Segment and issues the abort for its upload ID. When it
succeeds the record of that path, and no other, is removed from the table. -/
theorem CompleteSegment_atomic (m : segment.Methods) (c c1 : qingstor.Client)
    (path : GoString) (err : error) (h : c.CompleteSegment m path = (c1, err)) :
    (err ≠ none ↔
      (qingstor.SegmentMap.get c.segments path = none ∨
        ∃ s, qingstor.SegmentMap.get c.segments path = some s ∧
          (m.ValidateParts s ≠ none ∨
            (c.bucket.respond c.bucket.calls
              (.CompleteMultipartUpload path s.ID (qingstor.objectParts s.Parts))).err ≠ none))) ∧
    (err ≠ none →
      c1.segments = c.segments ∧
      ∀ s, qingstor.SegmentMap.get c.segments path = some s →
        qingstor.SegmentMap.get c1.segments path = some s ∧
        (c1.AbortSegment path).1.bucket.calls =
          c1.bucket.calls ++ [.AbortMultipartUpload path s.ID]) ∧
    (err = none →
      (∃ s, qingstor.SegmentMap.get c.segments path = some s) ∧
      c1.segments = qingstor.SegmentMap.delete c.segments path ∧
      qingstor.SegmentMap.get c1.segments path = none ∧
      ∀ q, q ≠ path →
        qingstor.SegmentMap.get c1.segments q = qingstor.SegmentMap.get c.segments q) := by
  unfold qingstor.Client.CompleteSegment at h
  cases hg : qingstor.SegmentMap.get c.segments path with
  | none =>
    simp only [hg, Prod.mk.injEq] at h
    obtain ⟨rfl, rfl⟩ := h
    simp [fmt.Errorf_w, hg]
  | some s =>
    simp only [hg] at h
    cases hv : m.ValidateParts s with
    | some e =>
      simp only [hv, Prod.mk.injEq] at h
      obtain ⟨rfl, rfl⟩ := h
      simp [hg, hv, qingstor.Client.AbortSegment, service.Bucket.call]
      cases (c.bucket.respond c.bucket.calls (.AbortMultipartUpload path s.ID)).err <;> simp
    | none =>
      simp only [hv, service.Bucket.call] at h
      cases hr : (c.bucket.respond c.bucket.calls
          (.CompleteMultipartUpload path s.ID (qingstor.objectParts s.Parts))).err with
      | some e =>
        simp only [hr, Prod.mk.injEq] at h
        obtain ⟨rfl, rfl⟩ := h
        simp [hg, hv, hr, fmt.Errorf_w, qingstor.Client.AbortSegment, service.Bucket.call]
        split <;> simp
      | none =>
        simp only [hr, Prod.mk.injEq] at h
        obtain ⟨rfl, rfl⟩ := h
        simp [hg, hv, hr, qingstor.SegmentMap.get_delete_self]
        intro q hq
        exact qingstor.SegmentMap.get_delete_other _ _ _ hq

/-- Completion that succeeds on `a`, fails validation on `b`, and fails at the
backend on `a`. -/
theorem CompleteSegment_atomic_witness :
    ((qingstor.acceptedClient.CompleteSegment segment.specMethods (str "a")).2 = none ∧
      qingstor.SegmentMap.get
        (qingstor.acceptedClient.CompleteSegment segment.specMethods (str "a")).1.segments
        (str "a") = none ∧
      qingstor.SegmentMap.get
        (qingstor.acceptedClient.CompleteSegment segment.specMethods (str "a")).1.segments
        (str "b") = some qingstor.openSegment) ∧
    ((qingstor.acceptedClient.CompleteSegment segment.specMethods (str "b")).2 ≠ none ∧
      (qingstor.acceptedClient.CompleteSegment segment.specMethods (str "b")).1.segments =
        qingstor.acceptedClient.segments) ∧
    ((qingstor.refusedClient.CompleteSegment segment.specMethods (str "a")).2 ≠ none ∧
      (qingstor.refusedClient.CompleteSegment segment.specMethods (str "a")).1.segments =
        qingstor.refusedClient.segments) :=
  have ha := CompleteSegment_atomic segment.specMethods qingstor.acceptedClient
    (qingstor.acceptedClient.CompleteSegment segment.specMethods (str "a")).1 (str "a")
    (qingstor.acceptedClient.CompleteSegment segment.specMethods (str "a")).2 rfl
  have hb := CompleteSegment_atomic segment.specMethods qingstor.acceptedClient
    (qingstor.acceptedClient.CompleteSegment segment.specMethods (str "b")).1 (str "b")
    (qingstor.acceptedClient.CompleteSegment segment.specMethods (str "b")).2 rfl
  have hr := CompleteSegment_atomic segment.specMethods qingstor.refusedClient
    (qingstor.refusedClient.CompleteSegment segment.specMethods (str "a")).1 (str "a")
    (qingstor.refusedClient.CompleteSegment segment.specMethods (str "a")).2 rfl
  ⟨⟨by decide, (ha.2.2 (by decide)).2.2.1,
      ((ha.2.2 (by decide)).2.2.2 (str "b") (by decide)).trans (by decide)⟩,
    ⟨by decide, (hb.2.1 (by decide)).1⟩,
    ⟨by decide, (hr.2.1 (by decide)).1⟩⟩

/-- C4, as stated, fails: on a backend whose abort call returns an error,
`AbortSegment` issues the call, returns the error and keeps the record, and a
following `InitSegment` on the path is rejected as a duplicate. -/
theorem AbortSegment_keeps_record_on_backend_error :
    qingstor.SegmentMap.get qingstor.refusedClient.segments (str "b") =
        some qingstor.openSegment ∧
      (qingstor.refusedClient.AbortSegment (str "b")).1.bucket.calls =
        [.AbortMultipartUpload (str "b") (str "id-1")] ∧
      (qingstor.refusedClient.AbortSegment (str "b")).2 =
        fmt.Errorf_w (str "qingstor AbortSegment failed: ") (fmt.Errorf (str "timeout")) ∧
      qingstor.SegmentMap.get (qingstor.refusedClient.AbortSegment (str "b")).1.segments
        (str "b") = some qingstor.openSegment ∧
      ((qingstor.refusedClient.AbortSegment (str "b")).1.InitSegment (str "b") 150).2 =
        some (fmt.Errorf (str "Segment b has been initiated")) ∧
      ((qingstor.refusedClient.AbortSegment (str "b")).1.InitSegment (str "b") 150).1.bucket.calls =
        [.AbortMultipartUpload (str "b") (str "id-1")] := by
  decide

/-- C4, as amended: for a path with a live Segment, `AbortSegment` issues the
backend abort call for its upload ID. When that call succeeds the record of the
path is discarded and a following `InitSegment` on the path is not rejected as a
duplicate: it goes on to the backend. When the call returns an error,
`AbortSegment` returns it wrapped and the segment table is unchanged. -/
theorem AbortSegment_discards_on_success (c c1 : qingstor.Client) (path : GoString)
    (s : segment.Segment) (err : error)
    (hs : qingstor.SegmentMap.get c.segments path = some s)
    (h : c.AbortSegment path = (c1, err)) :
    c1.bucket.calls = c.bucket.calls ++ [.AbortMultipartUpload path s.ID] ∧
    ((c.bucket.respond c.bucket.calls (.AbortMultipartUpload path s.ID)).err = none →
      err = none ∧
      c1.segments = qingstor.SegmentMap.delete c.segments path ∧
      qingstor.SegmentMap.get c1.segments path = none ∧
      ∀ size, (c1.InitSegment path size).1.bucket.calls =
        c1.bucket.calls ++ [.InitiateMultipartUpload path]) ∧
    (∀ e, (c.bucket.respond c.bucket.calls (.AbortMultipartUpload path s.ID)).err = some e →
      err = fmt.Errorf_w (str "qingstor AbortSegment failed: ") e ∧
      c1.segments = c.segments ∧
      qingstor.SegmentMap.get c1.segments path = some s) := by
  unfold qingstor.Client.AbortSegment at h
  simp only [hs, service.Bucket.call] at h
  cases hr : (c.bucket.respond c.bucket.calls (.AbortMultipartUpload path s.ID)).err with
  | some e =>
    simp only [hr, Prod.mk.injEq] at h
    obtain ⟨rfl, rfl⟩ := h
    simp [hs]
  | none =>
    simp only [hr, Prod.mk.injEq] at h
    obtain ⟨rfl, rfl⟩ := h
    simp [qingstor.SegmentMap.get_delete_self, qingstor.Client.InitSegment, service.Bucket.call]
    intro size
    split <;> simp

/-- Abort of `b` on a backend that accepts the call, and on one that refuses it. -/
theorem AbortSegment_discards_on_success_witness :
    (qingstor.SegmentMap.get qingstor.acceptedClient.segments (str "b") =
        some qingstor.openSegment ∧
      (qingstor.acceptedClient.AbortSegment (str "b")).2 = none ∧
      qingstor.SegmentMap.get (qingstor.acceptedClient.AbortSegment (str "b")).1.segments
        (str "b") = none ∧
      ((qingstor.acceptedClient.AbortSegment (str "b")).1.InitSegment (str "b") 150).1.bucket.calls =
        (qingstor.acceptedClient.AbortSegment (str "b")).1.bucket.calls ++
          [.InitiateMultipartUpload (str "b")]) ∧
    ((qingstor.refusedClient.AbortSegment (str "b")).2 =
        fmt.Errorf_w (str "qingstor AbortSegment failed: ") (fmt.Errorf (str "timeout")) ∧
      (qingstor.refusedClient.AbortSegment (str "b")).1.segments =
        qingstor.refusedClient.segments) :=
  have ha := AbortSegment_discards_on_success qingstor.acceptedClient
    (qingstor.acceptedClient.AbortSegment (str "b")).1 (str "b") qingstor.openSegment
    (qingstor.acceptedClient.AbortSegment (str "b")).2 (by decide) rfl
  have hr := AbortSegment_discards_on_success qingstor.refusedClient
    (qingstor.refusedClient.AbortSegment (str "b")).1 (str "b") qingstor.openSegment
    (qingstor.refusedClient.AbortSegment (str "b")).2 (by decide) rfl
  ⟨⟨by decide, (ha.2.1 (by decide)).1, (ha.2.1 (by decide)).2.2.1,
      (ha.2.1 (by decide)).2.2.2 150⟩,
    ⟨(hr.2.2 (fmt.Errorf (str "timeout")) (by decide)).1,
      (hr.2.2 (fmt.Errorf (str "timeout")) (by decide)).2.1⟩⟩

/-- C5: `WriteSegment` fails and leaves the segment table as it was when the
path has no live Segment, when the part-index lookup fails, or when the backend
upload fails; in the first two cases no remote call is issued. The part is
recorded, by `InsertPart`, exactly when the backend upload has been issued and
has succeeded: the table then holds at the path the Segment as `InsertPart`
left it and every other path keeps its record, and a changed table implies a
successful upload. -/
theorem WriteSegment_records_after_upload (m : segment.Methods) (c c1 : qingstor.Client)
    (path : GoString) (offset size : Int) (r : GoString) (err : error)
    (h : c.WriteSegment m path offset size r = (c1, err)) :
    (qingstor.SegmentMap.get c.segments path = none →
      err ≠ none ∧ c1.segments = c.segments ∧ c1.bucket.calls = c.bucket.calls) ∧
    (∀ s, qingstor.SegmentMap.get c.segments path = some s →
      ((m.GetPartIndex s ⟨offset, size⟩).2 ≠ none →
        err ≠ none ∧ c1.segments = c.segments ∧ c1.bucket.calls = c.bucket.calls) ∧
      ((m.GetPartIndex s ⟨offset, size⟩).2 = none →
        c1.bucket.calls = c.bucket.calls ++
          [.UploadMultipart path (m.GetPartIndex s ⟨offset, size⟩).1 s.ID size r] ∧
        ((c.bucket.respond c.bucket.calls
            (.UploadMultipart path (m.GetPartIndex s ⟨offset, size⟩).1 s.ID size r)).err ≠ none →
          err ≠ none ∧ c1.segments = c.segments ∧
          qingstor.SegmentMap.get c1.segments path = some s) ∧
        ((c.bucket.respond c.bucket.calls
            (.UploadMultipart path (m.GetPartIndex s ⟨offset, size⟩).1 s.ID size r)).err = none →
          c1.segments =
              qingstor.SegmentMap.set c.segments path (m.InsertPart s ⟨offset, size⟩).1 ∧
            qingstor.SegmentMap.get c1.segments path =
              some (m.InsertPart s ⟨offset, size⟩).1 ∧
            (∀ q, q ≠ path →
              qingstor.SegmentMap.get c1.segments q = qingstor.SegmentMap.get c.segments q) ∧
            ((m.InsertPart s ⟨offset, size⟩).2 = none → err = none)))) ∧
    (c1.segments ≠ c.segments →
      ∃ s, qingstor.SegmentMap.get c.segments path = some s ∧
        (m.GetPartIndex s ⟨offset, size⟩).2 = none ∧
        (c.bucket.respond c.bucket.calls
          (.UploadMultipart path (m.GetPartIndex s ⟨offset, size⟩).1 s.ID size r)).err = none ∧
        c1.bucket.calls = c.bucket.calls ++
          [.UploadMultipart path (m.GetPartIndex s ⟨offset, size⟩).1 s.ID size r]) := by
  unfold qingstor.Client.WriteSegment at h
  cases hg : qingstor.SegmentMap.get c.segments path with
  | none =>
    simp only [hg, Prod.mk.injEq] at h
    obtain ⟨rfl, rfl⟩ := h
    simp [fmt.Errorf_w]
  | some s =>
    simp only [hg] at h
    rcases hi : m.GetPartIndex s ⟨offset, size⟩ with ⟨partNumber, ierr⟩
    simp only [hi] at h
    cases ierr with
    | some e =>
      simp only [Prod.mk.injEq] at h
      obtain ⟨rfl, rfl⟩ := h
      simp [fmt.Errorf_w, hi]
    | none =>
      simp only [service.Bucket.call] at h
      cases hr : (c.bucket.respond c.bucket.calls
          (.UploadMultipart path partNumber s.ID size r)).err with
      | some e =>
        simp only [hr, Prod.mk.injEq] at h
        obtain ⟨rfl, rfl⟩ := h
        simp [fmt.Errorf_w, hg, hi, hr]
      | none =>
        simp only [hr] at h
        rcases hp : m.InsertPart s ⟨offset, size⟩ with ⟨s1, perr⟩
        simp only [hp] at h
        cases perr with
        | some e =>
          simp only [Prod.mk.injEq] at h
          obtain ⟨rfl, rfl⟩ := h
          simp [hi, hr, hp, qingstor.SegmentMap.get_set_self]
          intro q hq
          exact qingstor.SegmentMap.get_set_other _ _ _ _ hq
        | none =>
          simp only [Prod.mk.injEq] at h
          obtain ⟨rfl, rfl⟩ := h
          simp [hi, hr, hp, qingstor.SegmentMap.get_set_self]
          intro q hq
          exact qingstor.SegmentMap.get_set_other _ _ _ _ hq

/-- A write that is recorded, one whose upload fails, one whose part overlaps,
and one on a path with no Segment; each sends 50 bytes. -/
theorem WriteSegment_records_after_upload_witness :
    ((qingstor.acceptedClient.WriteSegment segment.specMethods (str "b") 100 50
        qingstor.fiftyBytes).2 = none ∧
      qingstor.SegmentMap.get (qingstor.acceptedClient.WriteSegment segment.specMethods (str "b") 100 50
        qingstor.fiftyBytes).1.segments (str "b") =
        some { TotalSize := 150, ID := str "id-1", Parts := [⟨0, 100⟩, ⟨100, 50⟩] } ∧
      qingstor.SegmentMap.get (qingstor.acceptedClient.WriteSegment segment.specMethods (str "b") 100 50
        qingstor.fiftyBytes).1.segments (str "a") =
        some qingstor.fullSegment ∧
      (qingstor.acceptedClient.WriteSegment segment.specMethods (str "b") 100 50
        qingstor.fiftyBytes).1.segments =
        qingstor.SegmentMap.set qingstor.acceptedClient.segments (str "b")
          { TotalSize := 150, ID := str "id-1", Parts := [⟨0, 100⟩, ⟨100, 50⟩] } ∧
      (qingstor.acceptedClient.WriteSegment segment.specMethods (str "b") 100 50
        qingstor.fiftyBytes).1.bucket.calls =
        [.UploadMultipart (str "b") 1 (str "id-1") 50 qingstor.fiftyBytes]) ∧
    ((qingstor.refusedClient.WriteSegment segment.specMethods (str "b") 100 50
        qingstor.fiftyBytes).2 ≠ none ∧
      (qingstor.refusedClient.WriteSegment segment.specMethods (str "b") 100 50
        qingstor.fiftyBytes).1.segments =
        qingstor.refusedClient.segments ∧
      qingstor.SegmentMap.get (qingstor.refusedClient.WriteSegment segment.specMethods (str "b") 100 50
        qingstor.fiftyBytes).1.segments (str "b") =
        some qingstor.openSegment) ∧
    ((qingstor.acceptedClient.WriteSegment segment.specMethods (str "b") 50 50
        qingstor.fiftyBytes).2 ≠ none ∧
      (qingstor.acceptedClient.WriteSegment segment.specMethods (str "b") 50 50
        qingstor.fiftyBytes).1.bucket.calls = []) ∧
    ((qingstor.acceptedClient.WriteSegment segment.specMethods (str "c") 0 50
        qingstor.fiftyBytes).2 ≠ none ∧
      (qingstor.acceptedClient.WriteSegment segment.specMethods (str "c") 0 50
        qingstor.fiftyBytes).1.segments =
        qingstor.acceptedClient.segments) :=
  have ha := WriteSegment_records_after_upload segment.specMethods qingstor.acceptedClient
    (qingstor.acceptedClient.WriteSegment segment.specMethods (str "b") 100 50
        qingstor.fiftyBytes).1
    (str "b") 100 50 qingstor.fiftyBytes
    (qingstor.acceptedClient.WriteSegment segment.specMethods (str "b") 100 50
        qingstor.fiftyBytes).2 rfl
  have hr := WriteSegment_records_after_upload segment.specMethods qingstor.refusedClient
    (qingstor.refusedClient.WriteSegment segment.specMethods (str "b") 100 50
        qingstor.fiftyBytes).1
    (str "b") 100 50 qingstor.fiftyBytes
    (qingstor.refusedClient.WriteSegment segment.specMethods (str "b") 100 50
        qingstor.fiftyBytes).2 rfl
  have ho := WriteSegment_records_after_upload segment.specMethods qingstor.acceptedClient
    (qingstor.acceptedClient.WriteSegment segment.specMethods (str "b") 50 50
        qingstor.fiftyBytes).1
    (str "b") 50 50 qingstor.fiftyBytes
    (qingstor.acceptedClient.WriteSegment segment.specMethods (str "b") 50 50
        qingstor.fiftyBytes).2 rfl
  have hn := WriteSegment_records_after_upload segment.specMethods qingstor.acceptedClient
    (qingstor.acceptedClient.WriteSegment segment.specMethods (str "c") 0 50
        qingstor.fiftyBytes).1
    (str "c") 0 50 qingstor.fiftyBytes
    (qingstor.acceptedClient.WriteSegment segment.specMethods (str "c") 0 50
        qingstor.fiftyBytes).2 rfl
  have hok := ((ha.2.1 qingstor.openSegment (by decide)).2 (by decide)).2.2 (by decide)
  have hbad := ((hr.2.1 qingstor.openSegment (by decide)).2 (by decide)).2.1 (by decide)
  ⟨⟨hok.2.2.2 (by decide), hok.2.1.trans (by decide),
      (hok.2.2.1 (str "a") (by decide)).trans (by decide), hok.1.trans (by decide),
      ((ha.2.1 qingstor.openSegment (by decide)).2 (by decide)).1.trans (by decide)⟩,
    ⟨hbad.1, hbad.2.1, hbad.2.2⟩,
    ⟨((ho.2.1 qingstor.openSegment (by decide)).1 (by decide)).1,
      ((ho.2.1 qingstor.openSegment (by decide)).1 (by decide)).2.2.trans (by decide)⟩,
    ⟨(hn.1 (by decide)).1, (hn.1 (by decide)).2.1⟩⟩

/-! ## Error normalizer -/

/-- C6: every backend storage error with an empty provider error code and
status code 404 is normalized to an error that wraps the not-exist kind. -/
theorem formatError_empty_code_404_not_exist (e : GoError)
    (h : azblob.asStorageError (some e) = some ⟨str "", 404⟩) :
    errors.Is (azblob.formatError (some e)) (some services.ErrObjectNotExist) = true := by
  cases e <;> simp [azblob.asStorageError] at h
  obtain ⟨rfl, rfl⟩ := h
  simp [azblob.formatError, services.isInternalError, azblob.asStorageError, fmt.Errorf_w_v,
    errors.Is, errors.isLoop, services.ErrObjectNotExist]

/-- The test case "not found": status 404 with an empty code and message. -/
theorem formatError_empty_code_404_not_exist_witness :
    azblob.asStorageError (some (.storage (str "") 404 (str ""))) = some ⟨str "", 404⟩ ∧
      errors.Is (azblob.formatError (some (.storage (str "") 404 (str ""))))
        (some services.ErrObjectNotExist) = true :=
  ⟨by decide, formatError_empty_code_404_not_exist (.storage (str "") 404 (str "")) (by decide)⟩

/-- C7, as stated, fails: with an empty provider code, status 403 yields the
unexpected kind and not permission-denied; with a provider code that is in no
table entry, status 404 yields the unexpected kind and not not-exist. -/
theorem formatError_no_403_fallback :
    errors.Is (azblob.formatError (some (.storage (str "") 403 (str "forbidden"))))
        (some services.ErrPermissionDenied) = false ∧
      errors.Is (azblob.formatError (some (.storage (str "") 403 (str "forbidden"))))
        (some services.ErrUnexpected) = true ∧
      errors.Is (azblob.formatError (some (.storage (str "ServerBusy") 404 (str "busy"))))
        (some services.ErrObjectNotExist) = false ∧
      errors.Is (azblob.formatError (some (.storage (str "ServerBusy") 404 (str "busy"))))
        (some services.ErrUnexpected) = true := by
  decide

/-- C7, as amended: for a backend storage error, `formatError` falls back to
the status code only when the provider error code is empty: status 404 then
yields the not-exist kind and every other status, 403 included, the unexpected
kind; a non-empty provider code in no table entry yields the unexpected kind
whatever the status. -/
theorem formatError_status_fallback (e : GoError) (se : azblob.StorageError)
    (h : azblob.asStorageError (some e) = some se) :
    (se.ServiceCode = str "" →
      (se.StatusCode = 404 →
        errors.Is (azblob.formatError (some e)) (some services.ErrObjectNotExist) = true) ∧
      (se.StatusCode ≠ 404 →
        errors.Is (azblob.formatError (some e)) (some services.ErrUnexpected) = true ∧
        errors.Is (azblob.formatError (some e)) (some services.ErrPermissionDenied) = false ∧
        errors.Is (azblob.formatError (some e)) (some services.ErrObjectNotExist) = false)) ∧
    (se.ServiceCode ≠ str "" →
      se.ServiceCode ≠ azblob.StorageErrorCodeBlobNotFound →
      se.ServiceCode ≠ azblob.StorageErrorCodeInsufficientAccountPermissions →
        errors.Is (azblob.formatError (some e)) (some services.ErrUnexpected) = true ∧
        errors.Is (azblob.formatError (some e)) (some services.ErrPermissionDenied) = false ∧
        errors.Is (azblob.formatError (some e)) (some services.ErrObjectNotExist) = false) := by
  cases e <;> simp [azblob.asStorageError] at h
  subst h
  refine ⟨fun hc => ⟨fun hs => ?_, fun hs => ?_⟩, fun h1 h2 h3 => ?_⟩
  · simp only at hc hs
    simp [azblob.formatError, services.isInternalError, azblob.asStorageError, fmt.Errorf_w_v,
      errors.Is, errors.isLoop, services.ErrObjectNotExist, hc, hs]
  · simp only at hc hs
    simp [azblob.formatError, services.isInternalError, azblob.asStorageError, fmt.Errorf_w_v,
      errors.Is, errors.isLoop, services.ErrObjectNotExist, services.ErrUnexpected,
      services.ErrPermissionDenied, hc, hs]
  · simp only at h1 h2 h3
    simp [azblob.formatError, services.isInternalError, azblob.asStorageError, fmt.Errorf_w_v,
      errors.Is, errors.isLoop, services.ErrObjectNotExist, services.ErrUnexpected,
      services.ErrPermissionDenied, h1, h2, h3]

/-- Status 404 and status 403 with an empty code, and an unlisted code with status 404. -/
theorem formatError_status_fallback_witness :
    errors.Is (azblob.formatError (some (.storage (str "") 404 (str "gone"))))
        (some services.ErrObjectNotExist) = true ∧
      errors.Is (azblob.formatError (some (.storage (str "") 403 (str "forbidden"))))
        (some services.ErrUnexpected) = true ∧
      errors.Is (azblob.formatError (some (.storage (str "ServerBusy") 404 (str "busy"))))
        (some services.ErrUnexpected) = true :=
  ⟨((formatError_status_fallback (.storage (str "") 404 (str "gone")) ⟨str "", 404⟩
        (by decide)).1 (by decide)).1 (by decide),
    (((formatError_status_fallback (.storage (str "") 403 (str "forbidden")) ⟨str "", 403⟩
        (by decide)).1 (by decide)).2 (by decide)).1,
    ((formatError_status_fallback (.storage (str "ServerBusy") 404 (str "busy"))
        ⟨str "ServerBusy", 404⟩ (by decide)).2 (by decide) (by decide) (by decide)).1⟩

/-- C8, as stated, fails on the code named by the test: a storage error with
status 403 and provider code "permission_denied" is in no entry of this
backend's table and is normalized to the unexpected kind, not to
permission-denied; the same holds for an error with that text that is no
`azblob.StorageError`. -/
theorem formatError_permission_denied_code_unlisted :
    errors.Is (azblob.formatError (some (.storage (str "permission_denied") 403 (str ""))))
        (some services.ErrPermissionDenied) = false ∧
      errors.Is (azblob.formatError (some (.storage (str "permission_denied") 403 (str ""))))
        (some services.ErrUnexpected) = true ∧
      errors.Is (azblob.formatError (some (.other (str "permission_denied"))))
        (some services.ErrPermissionDenied) = false ∧
      errors.Is (azblob.formatError (some (.other (str "permission_denied"))))
        (some services.ErrUnexpected) = true := by
  decide

/-- C8, as amended: the provider error code is consulted before the status
code: for every backend storage error, whatever its status code, the
blob-not-found code yields the not-exist kind and the
insufficient-account-permissions code yields the permission-denied kind. -/
theorem formatError_code_before_status (e : GoError) (se : azblob.StorageError)
    (h : azblob.asStorageError (some e) = some se) :
    (se.ServiceCode = azblob.StorageErrorCodeBlobNotFound →
      errors.Is (azblob.formatError (some e)) (some services.ErrObjectNotExist) = true) ∧
    (se.ServiceCode = azblob.StorageErrorCodeInsufficientAccountPermissions →
      errors.Is (azblob.formatError (some e)) (some services.ErrPermissionDenied) = true ∧
      errors.Is (azblob.formatError (some e)) (some services.ErrObjectNotExist) = false) := by
  cases e <;> simp [azblob.asStorageError] at h
  subst h
  refine ⟨fun hc => ?_, fun hc => ?_⟩
  · simp only at hc
    subst hc
    simp [azblob.formatError, services.isInternalError, azblob.asStorageError, fmt.Errorf_w_v,
      errors.Is, errors.isLoop, services.ErrObjectNotExist,
      azblob.StorageErrorCodeBlobNotFound, str]
  · simp only at hc
    subst hc
    simp [azblob.formatError, services.isInternalError, azblob.asStorageError, fmt.Errorf_w_v,
      errors.Is, errors.isLoop, services.ErrObjectNotExist, services.ErrPermissionDenied,
      azblob.StorageErrorCodeBlobNotFound,
      azblob.StorageErrorCodeInsufficientAccountPermissions, str]

/-- Status 403 with the permission code, status 404 with the permission code,
and status 500 with the blob-not-found code. -/
theorem formatError_code_before_status_witness :
    errors.Is (azblob.formatError
        (some (.storage azblob.StorageErrorCodeInsufficientAccountPermissions 403 (str ""))))
        (some services.ErrPermissionDenied) = true ∧
      errors.Is (azblob.formatError
        (some (.storage azblob.StorageErrorCodeInsufficientAccountPermissions 404 (str ""))))
        (some services.ErrPermissionDenied) = true ∧
      errors.Is (azblob.formatError
        (some (.storage azblob.StorageErrorCodeBlobNotFound 500 (str ""))))
        (some services.ErrObjectNotExist) = true :=
  ⟨((formatError_code_before_status
        (.storage azblob.StorageErrorCodeInsufficientAccountPermissions 403 (str ""))
        ⟨azblob.StorageErrorCodeInsufficientAccountPermissions, 403⟩ (by decide)).2
        (by decide)).1,
    ((formatError_code_before_status
        (.storage azblob.StorageErrorCodeInsufficientAccountPermissions 404 (str ""))
        ⟨azblob.StorageErrorCodeInsufficientAccountPermissions, 404⟩ (by decide)).2
        (by decide)).1,
    (formatError_code_before_status
        (.storage azblob.StorageErrorCodeBlobNotFound 500 (str ""))
        ⟨azblob.StorageErrorCodeBlobNotFound, 500⟩ (by decide)).1 (by decide)⟩

/-- C9: an error that is not a canonical internal error and is mapped neither
by the provider-code table nor by the status fallback (it is no backend storage
error, or its provider code is non-empty and unlisted, or its provider code is
empty and its status is not 404) is normalized to an error that wraps the
unexpected kind, whose text is the kind's text, a comma and the original
error's text, and so contains the original text. -/
theorem formatError_unmapped_unexpected (e : GoError)
    (hint : services.isInternalError (some e) = false)
    (hun : azblob.asStorageError (some e) = none ∨
      ∃ se, azblob.asStorageError (some e) = some se ∧
        ((se.ServiceCode ≠ str "" ∧
            se.ServiceCode ≠ azblob.StorageErrorCodeBlobNotFound ∧
            se.ServiceCode ≠ azblob.StorageErrorCodeInsufficientAccountPermissions) ∨
          (se.ServiceCode = str "" ∧ se.StatusCode ≠ 404))) :
    ∃ r, azblob.formatError (some e) = some r ∧
      errors.Is (some r) (some services.ErrUnexpected) = true ∧
      r.Error = services.ErrUnexpected.Error ++ str ", " ++ e.Error ∧
      e.Error <:+: r.Error := by
  refine ⟨.wrapError (services.ErrUnexpected.Error ++ str ", " ++ e.Error)
    services.ErrUnexpected, ?_, ?_, rfl, ?_⟩
  · rcases hun with hn | ⟨se, hse, hc⟩
    · simp [azblob.formatError, hint, hn, fmt.Errorf_w_v, fmt.verbV]
    · rcases hc with ⟨h1, h2, h3⟩ | ⟨h1, h2⟩
      · simp [azblob.formatError, hint, hse, fmt.Errorf_w_v, fmt.verbV, h1, h2, h3]
      · simp [azblob.formatError, hint, hse, fmt.Errorf_w_v, fmt.verbV, h1, h2]
  · simp [errors.Is, errors.isLoop, services.ErrUnexpected]
  · exact ⟨services.ErrUnexpected.Error ++ str ", ", [], by simp [GoError.Error]⟩

/-- An error of another library, a storage error with an unlisted code, and a
storage error with an empty code and status 500. -/
theorem formatError_unmapped_unexpected_witness :
    (∃ r, azblob.formatError (some (.other (str "connection reset"))) = some r ∧
      errors.Is (some r) (some services.ErrUnexpected) = true ∧
      r.Error = str "unexpected, connection reset" ∧
      str "connection reset" <:+: r.Error) ∧
    (∃ r, azblob.formatError (some (.storage (str "ServerBusy") 503 (str "busy"))) = some r ∧
      errors.Is (some r) (some services.ErrUnexpected) = true ∧
      r.Error = str "unexpected, busy" ∧
      str "busy" <:+: r.Error) ∧
    (∃ r, azblob.formatError (some (.storage (str "") 500 (str "oops"))) = some r ∧
      errors.Is (some r) (some services.ErrUnexpected) = true ∧
      r.Error = str "unexpected, oops" ∧
      str "oops" <:+: r.Error) :=
  ⟨formatError_unmapped_unexpected (.other (str "connection reset")) (by decide)
      (Or.inl (by decide)),
    formatError_unmapped_unexpected (.storage (str "ServerBusy") 503 (str "busy")) (by decide)
      (Or.inr ⟨⟨str "ServerBusy", 503⟩, by decide, Or.inl (by decide)⟩),
    formatError_unmapped_unexpected (.storage (str "") 500 (str "oops")) (by decide)
      (Or.inr ⟨⟨str "", 500⟩, by decide, Or.inr (by decide)⟩)⟩

/-- C10: `Storage.formatError` and `Service.formatError` return nil exactly
when the input error is nil; for a non-nil input the inner error made by
`formatError` is non-nil, and is the input itself when that is a canonical
internal error, and otherwise wraps one of not-exist, permission-denied and
unexpected. -/
theorem formatError_nil_iff_nil (st : azblob.Storage) (sv : azblob.Service)
    (op name : GoString) (path : List GoString) (err : error) :
    (st.formatError op err path = none ↔ err = none) ∧
    (sv.formatError op err name = none ↔ err = none) ∧
    (∀ e, err = some e →
      ∃ inner, azblob.formatError err = some inner ∧
        st.formatError op err path =
          some { Op := op, Err := some inner, Storager := st, Path := path } ∧
        sv.formatError op err name =
          some { Op := op, Err := some inner, Servicer := sv, Name := name } ∧
        ((services.isInternalError err = true ∧ inner = e) ∨
          (services.isInternalError err = false ∧
            (errors.Is (some inner) (some services.ErrObjectNotExist) = true ∨
              errors.Is (some inner) (some services.ErrPermissionDenied) = true ∨
              errors.Is (some inner) (some services.ErrUnexpected) = true)))) := by
  refine ⟨?_, ?_, ?_⟩
  · simp [azblob.Storage.formatError]
  · simp [azblob.Service.formatError]
  · rintro e rfl
    cases hi : services.isInternalError (some e) with
    | true =>
      exact ⟨e, by simp [azblob.formatError, hi], by
        simp [azblob.Storage.formatError, azblob.formatError, hi], by
        simp [azblob.Service.formatError, azblob.formatError, hi], Or.inl ⟨rfl, rfl⟩⟩
    | false =>
      have key : ∃ k : services.ErrorCode, ∃ msg,
          azblob.formatError (some e) = some (.wrapError msg (.code k)) ∧
          (k = .ObjectNotExist ∨ k = .PermissionDenied ∨ k = .Unexpected) := by
        simp only [azblob.formatError, hi, Bool.false_eq_true, if_false, fmt.Errorf_w_v,
          services.ErrUnexpected, services.ErrObjectNotExist, services.ErrPermissionDenied]
        split
        · exact ⟨_, _, rfl, Or.inr (Or.inr rfl)⟩
        · split_ifs
          · exact ⟨_, _, rfl, Or.inl rfl⟩
          · exact ⟨_, _, rfl, Or.inr (Or.inr rfl)⟩
          · exact ⟨_, _, rfl, Or.inl rfl⟩
          · exact ⟨_, _, rfl, Or.inr (Or.inl rfl)⟩
          · exact ⟨_, _, rfl, Or.inr (Or.inr rfl)⟩
      obtain ⟨k, msg, hk, hcases⟩ := key
      refine ⟨.wrapError msg (.code k), hk, by simp [azblob.Storage.formatError, hk], by
        simp [azblob.Service.formatError, hk], Or.inr ⟨rfl, ?_⟩⟩
      rcases hcases with rfl | rfl | rfl <;>
        simp [errors.Is, errors.isLoop, services.ErrUnexpected, services.ErrObjectNotExist,
          services.ErrPermissionDenied]

/-- A nil error stays nil; a canonical internal error passes through; a foreign
error comes back wrapping the unexpected kind. -/
theorem formatError_nil_iff_nil_witness :
    azblob.Storage.formatError ⟨⟨[], [], [], []⟩, str "bucket", str "/"⟩ (str "stat") none
        [str "abc"] = none ∧
      (∃ inner, azblob.formatError (some services.ErrPermissionDenied) = some inner ∧
        inner = services.ErrPermissionDenied) ∧
      errors.Is (azblob.formatError (some (.other (str "connection reset"))))
        (some services.ErrUnexpected) = true :=
  have hnil := formatError_nil_iff_nil ⟨⟨[], [], [], []⟩, str "bucket", str "/"⟩
    ⟨⟨[], [], [], []⟩⟩ (str "stat") (str "bucket") [str "abc"] none
  have hint := formatError_nil_iff_nil ⟨⟨[], [], [], []⟩, str "bucket", str "/"⟩
    ⟨⟨[], [], [], []⟩⟩ (str "stat") (str "bucket") [str "abc"]
    (some services.ErrPermissionDenied)
  ⟨hnil.1.2 rfl,
    (hint.2.2 services.ErrPermissionDenied rfl).elim fun inner hi =>
      ⟨inner, hi.1, hi.2.2.2.elim (fun h => h.2) (fun h => absurd h.1 (by decide))⟩,
    by decide⟩

/-! ## Path resolver: absolute keys and keys outside the root -/

theorem strings.HasPrefix_iff (s pre : GoString) :
    strings.HasPrefix s pre = true ↔ pre <+: s := by
  constructor
  · intro h
    simp only [strings.HasPrefix, Bool.and_eq_true, decide_eq_true_eq, beq_iff_eq] at h
    exact List.prefix_iff_eq_take.mpr h.2.symm
  · rintro ⟨t, rfl⟩
    exact strings.HasPrefix_append pre t

theorem strings.TrimPrefix_of_not_prefix (s pre : GoString) (h : ¬ pre <+: s) :
    strings.TrimPrefix s pre = s := by
  have hf : strings.HasPrefix s pre = false := by
    cases hp : strings.HasPrefix s pre with
    | false => rfl
    | true => exact absurd ((strings.HasPrefix_iff s pre).mp hp) h
  simp [strings.TrimPrefix, hf]

/-- C11: `getAbsPath` is total: for every work directory `w` and path `p` it
returns `w` without its one leading "/", when it has one, followed by `p`
unchanged. As the test fixes it, "/root" with "/abc" gives "root/abc", "/" with
"abc" gives "abc", and "//abc" with "/def" gives "/abc/def". -/
theorem getAbsPath_total (f : azblob.Factory) (name : GoString) :
    (∀ w p : GoString,
      azblob.Storage.getAbsPath ⟨f, name, w⟩ p = strings.TrimPrefix w (str "/") ++ p) ∧
    (∀ rest p : GoString,
      azblob.Storage.getAbsPath ⟨f, name, str "/" ++ rest⟩ p = rest ++ p) ∧
    (∀ w p : GoString, ¬ str "/" <+: w →
      azblob.Storage.getAbsPath ⟨f, name, w⟩ p = w ++ p) ∧
    azblob.Storage.getAbsPath ⟨f, name, str "/root"⟩ (str "/abc") = str "root/abc" ∧
    azblob.Storage.getAbsPath ⟨f, name, str "/"⟩ (str "abc") = str "abc" ∧
    azblob.Storage.getAbsPath ⟨f, name, str "/root/"⟩ (str "abc") = str "root/abc" ∧
    azblob.Storage.getAbsPath ⟨f, name, str "//abc"⟩ (str "/def") = str "/abc/def" := by
  refine ⟨fun w p => rfl, fun rest p => ?_, fun w p hw => ?_, ?_, ?_, ?_, ?_⟩
  · simp only [azblob.Storage.getAbsPath]
    rw [strings.TrimPrefix_append]
  · simp only [azblob.Storage.getAbsPath]
    rw [strings.TrimPrefix_of_not_prefix w (str "/") hw]
  · show strings.TrimPrefix (str "/root") (str "/") ++ str "/abc" = str "root/abc"
    decide
  · show strings.TrimPrefix (str "/") (str "/") ++ str "abc" = str "abc"
    decide
  · show strings.TrimPrefix (str "/root/") (str "/") ++ str "abc" = str "root/abc"
    decide
  · show strings.TrimPrefix (str "//abc") (str "/") ++ str "/def" = str "/abc/def"
    decide

/-- A work directory with a leading "/" and one without. -/
theorem getAbsPath_total_witness :
    azblob.Storage.getAbsPath ⟨⟨[], [], [], []⟩, str "bucket", str "/root"⟩ (str "/abc") =
        str "root" ++ str "/abc" ∧
      (¬ str "/" <+: str "root/") ∧
      azblob.Storage.getAbsPath ⟨⟨[], [], [], []⟩, str "bucket", str "root/"⟩ (str "abc") =
        str "root/" ++ str "abc" :=
  have h := getAbsPath_total ⟨[], [], [], []⟩ (str "bucket")
  ⟨h.2.1 (str "root") (str "/abc"), by decide, h.2.2.1 (str "root/") (str "abc") (by decide)⟩

/-- C12, as stated, fails: with work directory "/root" the keys "xyz" and
"//xyz" do not start with the root "root", and `getRelPath` returns them as
they are: the first with no leading "/", the second with two. -/
theorem getRelPath_adds_no_separator :
    (¬ strings.TrimPrefix (str "/root") (str "/") <+: str "xyz") ∧
      azblob.Storage.getRelPath ⟨⟨[], [], [], []⟩, str "bucket", str "/root"⟩ (str "xyz") =
        str "xyz" ∧
      azblob.Storage.getRelPath ⟨⟨[], [], [], []⟩, str "bucket", str "/root"⟩ (str "xyz") ≠
        str "/xyz" ∧
      (¬ strings.TrimPrefix (str "/root") (str "/") <+: str "//xyz") ∧
      azblob.Storage.getRelPath ⟨⟨[], [], [], []⟩, str "bucket", str "/root"⟩ (str "//xyz") =
        str "//xyz" ∧
      azblob.Storage.getRelPath ⟨⟨[], [], [], []⟩, str "bucket", str "/root"⟩ (str "//xyz") ≠
        str "/xyz" := by
  decide

/-- C12, as amended: for every key that does not start with the configured
root (the work directory with its leading "/" stripped), `getRelPath` does not
fail and returns the key unchanged. -/
theorem getRelPath_outside_root (f : azblob.Factory) (name w key : GoString)
    (h : ¬ strings.TrimPrefix w (str "/") <+: key) :
    azblob.Storage.getRelPath ⟨f, name, w⟩ key = key := by
  simp only [azblob.Storage.getRelPath]
  exact strings.TrimPrefix_of_not_prefix key _ h

/-- The key "xyz" under the work directory "/root". -/
theorem getRelPath_outside_root_witness :
    (¬ strings.TrimPrefix (str "/root") (str "/") <+: str "xyz") ∧
      azblob.Storage.getRelPath ⟨⟨[], [], [], []⟩, str "bucket", str "/root"⟩ (str "xyz") =
        str "xyz" :=
  ⟨by decide, getRelPath_outside_root ⟨[], [], [], []⟩ (str "bucket") (str "/root") (str "xyz")
    (by decide)⟩
